import Mathlib

/-!
Verification of the Olympus-Agents Hephaestus tool runtime.

This file is a shallow embedding of the agent tool-invocation runtime of
`src/agents/hephaestus/agent.py` (response parsing and payload capture, the
content cache, the tool registry and validator, the guardrails, the
completion gate and the per-turn execution loop) and of the core file tools
of `src/core/tools/file_ops.py`, together with theorems about them.

Modelling conventions:
* Python strings are Lean `String`s; Python character-level operations
  (`in`, `strip`, `splitlines`, `lower`, slicing, `count`, `replace`) are
  re-implemented below on `String.data` so that every definition evaluates
  by kernel reduction.
* A Python dict of string-valued arguments is an ordered association list
  with unique keys (`Args`).
* The filesystem, subprocess/git outputs and the concrete tool handlers are
  oracles collected in an `Env` record; the embedded code consumes their
  output strings exactly as the Python does.
* Python float comparisons on lengths (`len(a) < len(b) * 0.5`,
  `len(a) > len(b) * 0.2`) are rendered as the exact integer comparisons
  `2 * len a < len b` and `5 * len a > len b`.
-/

/-- Python whitespace stripped by `str.strip()` (ASCII subset). -/
def isSpaceChar (c : Char) : Bool :=
  c == ' ' || c == '\t' || c == '\n' || c == '\r' || c == '\x0b' || c == '\x0c'

/-- Python `s.strip()`. -/
def pyStrip (s : String) : String :=
  String.mk (((s.data.dropWhile isSpaceChar).reverse.dropWhile isSpaceChar).reverse)

/-- Python `needle in hay` (substring test). -/
def strContains (hay needle : String) : Bool := decide (needle.data <:+: hay.data)

/-- Python `s.startswith(pre)`. -/
def startsWithB (s pre : String) : Bool := decide (pre.data <+: s.data)

/-- Python `s.endswith(suf)`. -/
def endsWithB (s suf : String) : Bool := decide (suf.data <:+ s.data)

/-- Python `s.lower()` (ASCII). -/
def pyLower (s : String) : String := String.mk (s.data.map Char.toLower)

/-- Python `s.upper()` (ASCII). -/
def pyUpper (s : String) : String := String.mk (s.data.map Char.toUpper)

/-- Python `s[:n]`. -/
def pyTake (n : Nat) (s : String) : String := String.mk (s.data.take n)

def pySplitlinesAux : List Char → List Char → List String
  | acc, [] => if acc.isEmpty then [] else [String.mk acc.reverse]
  | acc, '\n' :: rest => String.mk acc.reverse :: pySplitlinesAux [] rest
  | acc, c :: rest => pySplitlinesAux (c :: acc) rest

/-- Python `s.splitlines()` for `\n`-separated text (the only line separator
these strings use): a newline terminates a line, a final fragment is kept
only when nonempty. -/
def pySplitlines (s : String) : List String := pySplitlinesAux [] s.data

/-- Count of non-overlapping occurrences of the nonempty needle `n :: ns`,
scanned from the left. The fuel argument (the hay's length on the initial
call) keeps the recursion structural; every step consumes at least one
character, so it never runs out. -/
def countAux (n : Char) (ns : List Char) : Nat → List Char → Nat
  | 0, _ => 0
  | _ + 1, [] => 0
  | fuel + 1, c :: rest =>
    if (n :: ns) <+: (c :: rest) then countAux n ns fuel (rest.drop ns.length) + 1
    else countAux n ns fuel rest

/-- Python `hay.count(needle)`: non-overlapping occurrences scanned from the
left; for the empty needle Python counts `len(hay) + 1`. -/
def pyCount (hay needle : String) : Nat :=
  match needle.data with
  | [] => hay.data.length + 1
  | n :: ns => countAux n ns hay.data.length hay.data

/-- Replacement of every non-overlapping occurrence of the nonempty needle
`n :: ns` by `repl`, fuel-indexed like `countAux`. -/
def replaceAux (n : Char) (ns : List Char) (repl : List Char) : Nat → List Char → List Char
  | 0, l => l
  | _ + 1, [] => []
  | fuel + 1, c :: rest =>
    if (n :: ns) <+: (c :: rest) then repl ++ replaceAux n ns repl fuel (rest.drop ns.length)
    else c :: replaceAux n ns repl fuel rest

def interAll (repl : List Char) : List Char → List Char
  | [] => repl
  | c :: rest => repl ++ c :: interAll repl rest

/-- Python `hay.replace(needle, repl)` (all non-overlapping occurrences; an
empty needle inserts `repl` at every position as Python does). -/
def pyReplace (hay needle repl : String) : String :=
  match needle.data with
  | [] => String.mk (interAll repl.data hay.data)
  | n :: ns => String.mk (replaceAux n ns repl.data hay.data.length hay.data)

def joinWith (sep : String) : List String → String
  | [] => ""
  | [s] => s
  | s :: rest => s ++ sep ++ joinWith sep rest

/-- `", ".join(...)`, how a Python list of keys is surfaced in an error. -/
def joinComma (l : List String) : String := joinWith ", " l

/-- Python truthiness of a string. -/
def pyTruthy (s : String) : Bool := !(s == "")

/-- A Python dict of string arguments: an ordered association list with
unique keys. -/
abbrev Args := List (String × String)

/-- One parsed action: the dict with an "action" key and an "args" dict. -/
structure ToolCall where
  action : String
  args : Args
deriving DecidableEq, Repr

/-- One conversation entry (role, content). -/
abbrev Turn := String × String

/-- Python `args.get(k, d)`. -/
def argGet (args : Args) (k d : String) : String := (args.lookup k).getD d

/-- Python `args[k] = v` (replaces in place, or appends a new key). -/
def argSet (args : Args) (k v : String) : Args :=
  if (args.lookup k).isSome then
    args.map (fun kv => if kv.1 == k then (k, v) else kv)
  else args ++ [(k, v)]

/-! ## Path resolution and the core file tools (src/core/tools/file_ops.py) -/

def normSegs (acc : List String) : List String → List String
  | [] => acc.reverse
  | seg :: rest =>
    if seg == "" || seg == "." then normSegs acc rest
    else if seg == ".." then normSegs (acc.drop 1) rest
    else normSegs (seg :: acc) rest

def splitSlashAux : List Char → List Char → List String
  | acc, [] => [String.mk acc.reverse]
  | acc, '/' :: rest => String.mk acc.reverse :: splitSlashAux [] rest
  | acc, c :: rest => splitSlashAux (c :: acc) rest

def splitSlash (s : String) : List String := splitSlashAux [] s.data

/-- `os.path.abspath` on an already-absolute POSIX path: resolves ".", ".."
and empty segments. -/
def pyAbspath (p : String) : String :=
  "/" ++ joinWith "/" (normSegs [] (splitSlash p))

/-- `os.path.join(base, p)` (POSIX form; `base` carries no trailing slash). -/
def pyJoin (base p : String) : String :=
  if startsWithB p "/" then p else base ++ "/" ++ p

/-- `_get_safe_path` (src/core/tools/file_ops.py:9-27): resolve `file_path`
against the workspace and accept iff the absolute result starts, as a
string, with the absolute workspace; the raised ValueError is the `.error`
case. -/
def get_safe_path (workspace file_path : String) : Except String String :=
  let safe_base := pyAbspath workspace
  let full_path := pyAbspath (pyJoin workspace file_path)
  if startsWithB full_path safe_base then .ok full_path
  else .error ("❌ Access Denied: Path '" ++ file_path ++ "' attempts to escape sandbox (" ++ safe_base ++ ").")

/-- The specification-side notion of a path lying within the workspace:
the workspace itself or a path under it as a directory. -/
def withinWorkspace (base p : String) : Bool :=
  p == base || startsWithB p (base ++ "/")

/-- An abstract flat filesystem: path to content. -/
abbrev FS := String → Option String

/-- `write_file` (src/core/tools/file_ops.py:41-54) over an abstract
filesystem (the directory creation has no counterpart in a flat `FS`). -/
def write_file_op (workspace : String) (fs : FS) (file_path content : String) : String × FS :=
  match get_safe_path workspace file_path with
  | .error e => ("❌ Error writing file: " ++ e, fs)
  | .ok full_path =>
    ("✅ File Written: " ++ full_path,
     fun p => if p == full_path then some content else fs p)

/-- `read_file` (src/core/tools/file_ops.py:30-38). -/
def read_file_op (workspace : String) (fs : FS) (file_path : String) : String :=
  match get_safe_path workspace file_path with
  | .error e => "❌ Error reading file: " ++ e
  | .ok full_path =>
    match fs full_path with
    | none => "❌ Error: File not found at " ++ full_path
    | some content => content

/-- `append_file` (src/core/tools/file_ops.py:57-74). -/
def append_file_op (workspace : String) (fs : FS) (file_path content : String) : String × FS :=
  match get_safe_path workspace file_path with
  | .error e => ("❌ Error appending: " ++ e, fs)
  | .ok full_path =>
    match fs full_path with
    | none => ("❌ Error: File " ++ file_path ++ " does not exist. Use write_file to create it.", fs)
    | some existing =>
      let pre := if endsWithB existing "\n" then "" else "\n"
      ("✅ Appended to " ++ file_path,
       fun p => if p == full_path then some (existing ++ pre ++ content) else fs p)

/-- `edit_file` (src/core/tools/file_ops.py:77-108): replace `target_text`
only when it occurs and is not ambiguous. -/
def edit_file_op (workspace : String) (fs : FS) (file_path target_text replacement_text : String) : String × FS :=
  match get_safe_path workspace file_path with
  | .error e => ("❌ Error editing file: " ++ e, fs)
  | .ok full_path =>
    match fs full_path with
    | none => ("❌ Error: File not found: " ++ file_path, fs)
    | some content =>
      if !(strContains content target_text) then
        ("❌ Error: 'target_text' not found in file. Please Read file first and ensure EXACT match.", fs)
      else if pyCount content target_text > 1 then
        ("❌ Error: 'target_text' is ambiguous (found multiple times). Include more context lines.", fs)
      else
        ("✅ File edited successfully: " ++ file_path,
         fun p => if p == full_path then some (pyReplace content target_text replacement_text) else fs p)

/-! ## Tool registry and validator (src/agents/hephaestus/agent.py:373-506) -/

/-- The keys of the TOOLS registry dict. -/
def TOOLS : List String :=
  ["get_jira_issue", "list_files", "read_file", "edit_file", "git_setup_workspace",
   "git_commit", "git_push", "git_pull", "create_pr", "write_file", "append_file",
   "run_command", "install_package"]

/-- One entry of TOOL_SCHEMAS: a Python schema with no "optional" key is
modelled with `optional = []` (`schema.get` behaves identically). -/
structure ToolSchema where
  required : List String
  optional : List String
  file_path : Bool
deriving DecidableEq, Repr

def TOOL_SCHEMAS : String → Option ToolSchema
  | "get_jira_issue" => some ⟨["issue_key"], [], false⟩
  | "git_setup_workspace" => some ⟨["issue_key"], ["base_branch", "agent_name", "job_id"], false⟩
  | "list_files" => some ⟨[], ["directory"], false⟩
  | "read_file" => some ⟨[], [], true⟩
  | "write_file" => some ⟨["content"], [], true⟩
  | "append_file" => some ⟨["content"], [], true⟩
  | "edit_file" => some ⟨["target_text", "replacement_text"], [], true⟩
  | "git_commit" => some ⟨["message"], [], false⟩
  | "git_push" => some ⟨[], ["branch_name"], false⟩
  | "git_pull" => some ⟨[], ["branch_name"], false⟩
  | "create_pr" => some ⟨["title"], ["body", "base_branch", "head_branch"], false⟩
  | "run_command" => some ⟨["command"], ["cwd", "timeout"], false⟩
  | "install_package" => some ⟨["package_name"], [], false⟩
  | "task_complete" => some ⟨[], ["issue_key", "summary", "mode"], false⟩
  | _ => none

/-- `valid_keys = required ∪ optional ∪ (file_path?)` as the code builds it. -/
def validKeysOf (schema : ToolSchema) : List String :=
  schema.required ++ schema.optional ++ (if schema.file_path then ["file_path"] else [])

/-- The argument keys outside `valid_keys` (the Python set difference,
rendered in the argument order). -/
def unknownArgsOf (schema : ToolSchema) (args : Args) : List String :=
  (args.map Prod.fst).filter (fun k => !((validKeysOf schema).contains k))

/-- The required keys absent from the arguments. -/
def missingArgsOf (schema : ToolSchema) (args : Args) : List String :=
  schema.required.filter (fun k => (args.lookup k).isNone)

/-- What `execute_tool_dynamic` returns: `invoked` records whether the
registered handler was called at all. -/
structure ExecOutcome where
  success : Bool
  output : String
  invoked : Bool
deriving DecidableEq, Repr

def runHandler (handler : String → Args → String) (tool_name : String) (args : Args) : ExecOutcome :=
  let raw := handler tool_name args
  let is_success := strContains raw "✅" || strContains (pyUpper raw) "SUCCESS"
  ⟨is_success, pyReplace (pyReplace raw "✅" "[SUCCESS]") "❌" "[ERROR]", true⟩

/-- `execute_tool_dynamic` (src/agents/hephaestus/agent.py:468-506). The
handler bodies are an oracle; the Python `except` wrapper around the call is
unreachable for a total oracle and is not modelled. -/
def execute_tool_dynamic (handler : String → Args → String) (tool_name : String) (args : Args) : ExecOutcome :=
  if !(TOOLS.contains tool_name) then
    ⟨false, "Error: Unknown tool '" ++ tool_name ++ "'", false⟩
  else
    match TOOL_SCHEMAS tool_name with
    | some schema =>
      let unknown := unknownArgsOf schema args
      if unknown ≠ [] then
        ⟨false, "[ERROR] Invalid arguments: " ++ joinComma unknown ++ ". Allowed: " ++
          joinComma (validKeysOf schema), false⟩
      else
        let missing := missingArgsOf schema args
        if missing ≠ [] then
          ⟨false, "[ERROR] Missing required arguments: " ++ joinComma missing, false⟩
        else runHandler handler tool_name args
    | none => runHandler handler tool_name args

/-! ## The parse-and-capture stage (src/agents/hephaestus/agent.py:700-762) -/

def isWordChar (c : Char) : Bool := c.isAlphanum || c == '_'

/-- Split `hay` at the first occurrence of nonempty `needle`: (before, after). -/
def splitAtSub (needle : List Char) : List Char → Option (List Char × List Char)
  | [] => none
  | c :: rest =>
    if needle <+: (c :: rest) then some ([], (c :: rest).drop needle.length)
    else
      match splitAtSub needle rest with
      | some (pre, post) => some (c :: pre, post)
      | none => none

/-- The fenced-block captures of the Python regex findall over
three backticks, an optional word run, a newline, then a lazy body up to the
next three backticks (re.DOTALL). Fuel-indexed by the text length: every
recursive call consumes at least one character, so the fuel never runs out
on the initial call. -/
def extractFencedAux : Nat → List Char → List String
  | 0, _ => []
  | _ + 1, [] => []
  | fuel + 1, c :: rest =>
    if ['`', '`', '`'] <+: (c :: rest) then
      match ((c :: rest).drop 3).dropWhile isWordChar with
      | '\n' :: body =>
        match splitAtSub ['`', '`', '`'] body with
        | some (pre, post) => String.mk pre :: extractFencedAux fuel post
        | none => extractFencedAux fuel rest
      | _ => extractFencedAux fuel rest
    else extractFencedAux fuel rest

def extractFenced (s : String) : List String := extractFencedAux s.data.length s.data

/-- Line 730: payload blocks are the fenced blocks whose body does not hold
an action marker. -/
def validBlocks (content : String) : List String :=
  (extractFenced content).filter (fun b => !(strContains b "\"action\":"))

/-- Stable insertion keeping longer blocks first (Python
`sorted(key=len, reverse=True)`). -/
def insertDescLen (x : String) : List String → List String
  | [] => [x]
  | y :: ys => if y.length > x.length then y :: insertDescLen x ys else x :: y :: ys

def sortDescLen : List String → List String
  | [] => []
  | x :: xs => insertDescLen x (sortDescLen xs)

/-- Line 723-726: the first candidate action's `file_path` decides Markdown
mode. -/
def isMarkdownMode (toolCalls : List ToolCall) : Bool :=
  match toolCalls with
  | [] => false
  | t :: _ => endsWithB (pyLower (argGet t.args "file_path" "")) ".md"

def ambiguityMsg : String :=
  "🛑 SYSTEM ERROR: Multiple Files Detected!\nI found two large code blocks but I'm not in Markdown mode.\n👉 RULE: Send ONE file per message."

/-- Lines 752-755: a truthy captured block replaces the cache after
stripping; otherwise the cache is kept. -/
def updateMemory (nb : Option String) (cache : Option String) : Option String :=
  match nb with
  | some b => if pyTruthy b then some (pyStrip b) else cache
  | none => cache

structure ParseResult where
  ambiguous : Bool
  historyAdds : List Turn
  captured : Option String
  cache : Option String
deriving DecidableEq, Repr

/-- The parse-and-capture stage of one turn (lines 708-762). The JSON
extraction of candidate actions (`_extract_all_jsons` after
`sanitize_json_input`) is a parameter `toolCalls`; the fenced-block capture,
the task-completion bypass, the 20% dominance rule and the ContentCache
update are embedded. When `ambiguous` the turn ends (`continue`) with the
two history entries and nothing cached or executed. -/
def parsePhase (content : String) (toolCalls : List ToolCall) (cache : Option String) : ParseResult :=
  let isTaskFinishing := toolCalls.any (fun t => t.action == "task_complete")
  if isTaskFinishing then ⟨false, [], none, cache⟩
  else
    match validBlocks content with
    | [] => ⟨false, [], none, cache⟩
    | _ :: _ =>
      let sorted := sortDescLen (validBlocks content)
      let big := sorted.headD ""
      let second := sorted.getD 1 ""
      if sorted.length > 1 && !(isMarkdownMode toolCalls) &&
         (5 * second.length > big.length) && toolCalls.length ≤ 1 then
        ⟨true, [("assistant", content), ("user", ambiguityMsg)], none, cache⟩
      else
        ⟨false, [], some big, updateMemory (some big) cache⟩

/-! ## The execution loop (src/agents/hephaestus/agent.py:788-1106) -/

/-- The external world as the loop sees it: `cmd` is `run_sandbox_command`
at the workspace cwd (its output already carries the success/failure
wrapper), `fileExists` is `os.path.exists`, `readFile` models the `open`
in the overwrite guard (`none` = the read raises and the guard is skipped),
`handler` the registered tool bodies. -/
structure Env where
  cmd : String → String
  fileExists : String → Bool
  readFile : String → Option String
  handler : String → Args → String
  workspace : String

/-- The loop-carried state: the ContentCache (`persistent_code_block`), the
consecutive pytest-failure counter, and `agent_action_history`. -/
structure LoopState where
  cache : Option String
  failures : Nat
  actionHistory : List ToolCall
deriving DecidableEq, Repr

inductive LoopControl
  | next
  | stop
deriving DecidableEq, Repr

/-- What one iteration of the tool loop produces: outputs appended to
`step_outputs`, turns appended to `history`, the records appended to
`agent_action_history` (exactly the actions dispatched to
`execute_tool_dynamic`), the new state, the `task_finished` flag and
whether the Python body ran `continue` or `break`. -/
structure CallResult where
  stepOutputs : List String
  historyAdds : List Turn
  executed : List ToolCall
  state : LoopState
  finished : Bool
  control : LoopControl
deriving Repr

def skipResult (outs : List String) (hist : List Turn) (st : LoopState) : CallResult :=
  ⟨outs, hist, [], st, false, .next⟩

def haltResult (outs : List String) (hist : List Turn) (st : LoopState) : CallResult :=
  ⟨outs, hist, [], st, false, .stop⟩

def doneResult (outs : List String) (st : LoopState) : CallResult :=
  ⟨outs, [], [], st, true, .stop⟩

def execResultOf (outs : List String) (c : ToolCall) (st : LoopState) : CallResult :=
  ⟨outs, [], [c], st, false, .stop⟩

/-- The two-letter porcelain codes the dirty check accepts (line 838). -/
def PORCELAIN_CODES : List String := ["??", "M", "A", "D", "R", "C", "U"]

/-- Lines 823-827: untracked files from the `git clean -nd` preview. -/
def dirtyFromClean (clean_preview : String) : List String :=
  if pyTruthy (pyStrip clean_preview) then
    (pySplitlines clean_preview).filterMap (fun line =>
      let l := pyStrip line
      if pyTruthy l && strContains l "Would remove" then some l else none)
  else []

/-- Lines 830-839: modified files from `git status --porcelain`. -/
def dirtyFromStatus (status : String) : List String :=
  if pyTruthy (pyStrip status) then
    (pySplitlines status).filterMap (fun line =>
      let l := pyStrip line
      if !(pyTruthy l) then none
      else if startsWithB (pyLower l) "warning" || startsWithB (pyLower l) "note" then none
      else if PORCELAIN_CODES.contains (pyStrip (pyTake 2 l)) then some l else none)
  else []

def dirtyMsgLong (dirty : List String) : String :=
  "❌ FATAL: WORKSPACE IS DIRTY.\nI found untracked/uncommitted changes:\n" ++
  joinWith "\n" (dirty.take 10) ++ "\n(...and more)\n\n"

def dirtyMsgShort : String :=
  "\n--- [Suggested Cleanup] ---\n1. Commit them: `git add .` -> `git commit`\n2. Or delete them: `git clean -fd`\n👉 ACTION: Cleanup is REQUIRED before completing the task."

/-- Lines 843-852: by Python conditional-expression precedence the
implicitly concatenated literals split around `if len(dirty_items) > 10`,
so the FATAL header with the file list is the message only for more than
ten dirty items and the cleanup suggestion only otherwise. -/
def dirtyMsg (dirty : List String) : String :=
  if dirty.length > 10 then dirtyMsgLong dirty else dirtyMsgShort

structure ChangeClass where
  source_files : List String
  test_files : List String
  config_files : List String
  has_changes : Bool
deriving DecidableEq, Repr

/-- Lines 871-883: classify the changed files of the branch diff. -/
def classifyChanged (changed : List String) : ChangeClass :=
  changed.foldl (fun acc f0 =>
    let f := pyStrip f0
    if !(pyTruthy f) then acc
    else if startsWithB f "src/" || startsWithB f "app/" ||
            (endsWithB f ".py" && !(strContains f "test")) then
      { acc with source_files := acc.source_files ++ [f] }
    else if startsWithB f "tests/" || strContains f "test" then
      { acc with test_files := acc.test_files ++ [f] }
    else
      { acc with config_files := acc.config_files ++ [f] })
    ⟨[], [], [], !changed.isEmpty⟩

def rejectedNoChanges : String :=
  "❌ REJECTED: No file changes detected compared to main branch.\nIf you made changes, did you forget to 'git push'?\nIf this is just analysis, please use mode='analysis'."

def rejectedNoPR : String :=
  "❌ REJECTED: Code committed but NO Pull Request (PR) found. Please create a PR first."

def rejectedNoDeploy : String :=
  "❌ REJECTED: Definition of Done (DoD) failed!\nYou haven't restarted the services to verify your changes.\n👉 You MUST run: `docker-compose up -d --build`"

def rejectedDeployFailed : String :=
  "❌ REJECTED: Deployment Failed!\nYou ran the command, but 'docker ps' shows NO running containers.\nDid the container crash? Check logs."

/-- Lines 905-914: a docker-compose up/restart/start anywhere in the action
history counts as a deployment. -/
def hasDeployed (hist : List ToolCall) : Bool :=
  hist.any (fun r =>
    r.action == "run_command" &&
    (let c := pyLower (pyStrip (argGet r.args "command" ""))
     strContains c "docker" && strContains c "compose" &&
     (strContains c "up" || strContains c "restart" || strContains c "start")))

/-- The task_complete branch of the loop (lines 810-944): the
CompletionGate. Every rejection appends one corrective user turn and
`continue`s; acceptance sets `task_finished` and `break`s. -/
def taskCompleteCheck (env : Env) (st : LoopState) (args : Args) : CallResult :=
  let task_mode := pyLower (argGet args "mode" "code")
  let clean_preview := env.cmd "git clean -nd"
  let status := env.cmd "git status --porcelain"
  let dirty_items := dirtyFromClean clean_preview ++ dirtyFromStatus status
  if !dirty_items.isEmpty then
    skipResult [] [("user", dirtyMsg dirty_items)] st
  else
    let current_branch_raw := env.cmd "git branch --show-current"
    let current_branch := if pyTruthy current_branch_raw then pyStrip current_branch_raw else "HEAD"
    let is_main := current_branch == "main" || current_branch == "master" || current_branch == "HEAD"
    let cls :=
      if !is_main then
        classifyChanged (pySplitlines (pyStrip (env.cmd ("git diff --name-only main..." ++ current_branch))))
      else ⟨[], [], [], false⟩
    let validation_error : Option String :=
      if task_mode == "code" then
        let e1 : Option String :=
          if !cls.has_changes then some rejectedNoChanges
          else if cls.source_files.isEmpty && (!cls.config_files.isEmpty || !cls.test_files.isEmpty) then
            none
          else if !is_main then
            let pr_check := env.cmd ("gh pr list --head " ++ current_branch)
            if strContains pr_check "no open pull requests" || !(pyTruthy (pyStrip pr_check)) then
              some rejectedNoPR
            else none
          else none
        match e1 with
        | some e => some e
        | none =>
          if !(hasDeployed st.actionHistory) then some rejectedNoDeploy
          else
            let docker_check := env.cmd "docker ps"
            if !(strContains docker_check "api") && !(strContains docker_check "payment") &&
               !(strContains docker_check "hephaestus") then
              some rejectedDeployFailed
            else none
      else none
    match validation_error with
    | some e => skipResult [] [("user", e)] st
    | none => doneResult ["Task Completed: " ++ argGet args "summary" "Done"] st

def SENTINEL : String := "LAST_CODE_BLOCK"

/-- Line 953: `"LAST_CODE_BLOCK" in str(args)`. The repr of the dict shows
every key and value and the sentinel holds no quote or brace, so the test
is: some key or value contains it. -/
def argsHasSentinel (args : Args) : Bool :=
  args.any (fun kv => strContains kv.1 SENTINEL || strContains kv.2 SENTINEL)

/-- Line 954: `not persistent_code_block` (None or empty string). -/
def cacheFalsy : Option String → Bool
  | none => true
  | some s => s == ""

def cacheVal (c : Option String) : String := c.getD ""

def sentinelErrorMsg : String :=
  "🛑 PRE-EXECUTION ERROR: You used 'LAST_CODE_BLOCK' but memory is empty."

/-- Lines 959-964: attach the cached block to the content-bearing argument. -/
def injectSentinel (action : String) (args : Args) (cache : String) : Args :=
  if action == "write_file" || action == "append_file" then argSet args "content" cache
  else if action == "edit_file" then argSet args "replacement_text" cache
  else args

/-- re.sub of a leading fence line (three backticks, alnum run, newline)
anchored at the start of the value. -/
def stripMdHeader (v : String) : String :=
  if startsWithB v "```" then
    match (v.data.drop 3).dropWhile Char.isAlphanum with
    | '\n' :: rest => String.mk rest
    | _ => v
  else v

/-- re.sub of a trailing newline-fence: without MULTILINE the dollar matches
at the end or just before one final newline. -/
def stripMdFooter (v : String) : String :=
  if endsWithB v "\n```" then String.mk (v.data.take (v.data.length - 4))
  else if endsWithB v "\n```\n" then String.mk (v.data.take (v.data.length - 5) ++ ['\n'])
  else v

/-- Lines 969-972: the markdown stripper over one argument key. -/
def stripKey (args : Args) (key : String) : Args :=
  if (args.lookup key).isSome && strContains (argGet args key "") "```" then
    argSet args key (pyStrip (stripMdFooter (stripMdHeader (argGet args key ""))))
  else args

def stripArgs (args : Args) : Args := stripKey (stripKey args "content") "replacement_text"

/-- Lines 1017-1030: the docker command auto-fixes. Python `str.replace`
rewrites every occurrence of "up". -/
def dockerFix (args : Args) : Args :=
  let cmd := argGet args "command" ""
  let (args1, cmd1) :=
    if strContains cmd "docker-compose up" then
      let c1 := if !(strContains cmd "--build") then pyReplace cmd "up" "up --build" else cmd
      let c2 := if !(strContains c1 "-d") then pyReplace c1 "up" "up -d" else c1
      (argSet args "command" c2, c2)
    else (args, cmd)
  if strContains cmd1 "docker" && !(strContains cmd1 "DOCKER_BUILDKIT") then
    argSet args1 "command" ("set DOCKER_BUILDKIT=0&& " ++ argGet args1 "command" "")
  else args1

/-- Lines 1066-1070: the most recent write/edit/append record names the
last-edited file. -/
def lastEditedFile (hist : List ToolCall) : String :=
  match hist.reverse.find? (fun r =>
      r.action == "write_file" || r.action == "edit_file" || r.action == "append_file") with
  | some r => argGet r.args "file_path" "the source code"
  | none => "the source code"

def stopDirective (f : String) : String := "👉 STOP editing `" ++ f ++ "`.\n"

def interventionMsg (n : Nat) (lastFile : String) : String :=
  "\n\n🛑 SYSTEM INTERVENTION (RULE #7 TRIGGERED):\nYou have failed the tests " ++ toString n ++
  " times in a row!\n" ++ stopDirective lastFile ++
  "👉 The error is likely in the TEST file expectation, not the code.\n👉 ACTION: Check the TEST file logic and fix the assertion if it's unrealistic."

/-- Lines 1058-1081: the consecutive-failure breaker. Returns the updated
counter and the (possibly warning-augmented) result text. `histAfter` is
`agent_action_history` with the current record already appended, as at
line 1067. -/
def pytestUpdate (failures : Nat) (histAfter : List ToolCall) (action : String) (args : Args)
    (result : String) : Nat × String :=
  if action == "run_command" && strContains (argGet args "command" "") "pytest" then
    let f := if strContains result "FAILURES" || strContains result "ERRORS" then failures + 1 else 0
    if f ≥ 2 then (f, result ++ interventionMsg f (lastEditedFile histAfter))
    else (f, result)
  else (failures, result)

def ignoredNotice (n : Nat) : String :=
  "The other " ++ toString (n - 1) ++ " actions were IGNORED."

/-- Lines 1084-1092: the batching alert appended to the executed action's
result when more than one distinct candidate was present. -/
def batchAlert (n : Nat) (action : String) : String :=
  "\n\n🚨 SYSTEM ALERT: You violated the 'No Batching' rule! You sent " ++ toString n ++
  " actions at once. I executed ONLY the first one ('" ++ action ++ "'). " ++
  ignoredNotice n ++ " Wait for this result before sending the next command."

def filenameGuardMsg : String := "❌ FILENAME ERROR: Spec file MUST be named 'docs/specs.md'."

def specGuardMsg : String := "❌ POLICY VIOLATION: Write 'docs/specs.md' first."

/-- Lines 1016-1106: the per-tool middleware (docker auto-fix and
git_setup_workspace injection), the record-and-execute step, the memory
flush, the pytest breaker and the batching alert. `batchCount` is
`len(unique_tools)`. -/
def execStage (env : Env) (jobId agentName : String) (batchCount : Nat) (st : LoopState)
    (action : String) (args2 : Args) : CallResult :=
  let args3 :=
    if action == "run_command" then dockerFix args2
    else if action == "git_setup_workspace" then
      argSet (argSet args2 "job_id" jobId) "agent_name" agentName
    else args2
  let finalCall : ToolCall := ⟨action, args3⟩
  let hist1 := st.actionHistory ++ [finalCall]
  let res := execute_tool_dynamic env.handler action args3
  let cache1 :=
    if (action == "write_file" || action == "append_file" || action == "edit_file") && res.success
    then none else st.cache
  let fr := pytestUpdate st.failures hist1 action args3 res.output
  let result3 := if batchCount > 1 then fr.2 ++ batchAlert batchCount action else fr.2
  execResultOf ["Tool Output: " ++ result3] finalCall ⟨cache1, fr.1, hist1⟩

/-- Lines 977-1010: the filename, spec-precondition and overwrite
guardrails, in source order; `args2` is the argument dict after sentinel
injection and markdown stripping. -/
def guardStage (env : Env) (content jobId agentName : String) (batchCount : Nat)
    (st : LoopState) (action target_file : String) (args2 : Args) : CallResult :=
  if endsWithB action "_file" && startsWithB target_file "docs/" &&
     !(target_file == "docs/specs.md") then
    haltResult [filenameGuardMsg] [("assistant", content), ("user", filenameGuardMsg)] st
  else if endsWithB action "_file" &&
          (startsWithB target_file "src/" || startsWithB target_file "tests/") &&
          !(env.fileExists (pyJoin env.workspace "docs/specs.md")) then
    haltResult [specGuardMsg] [("assistant", content), ("user", specGuardMsg)] st
  else if action == "write_file" &&
          env.fileExists (pyJoin env.workspace target_file) &&
          endsWithB target_file ".py" &&
          (match env.readFile (pyJoin env.workspace target_file) with
           | some old => 2 * (argGet args2 "content" "").length < old.length
           | none => false) then
    haltResult ["🚫 SAFETY BLOCK: Preventing large delete on " ++ target_file ++ "."] [] st
  else
    execStage env jobId agentName batchCount st action args2

/-- One iteration of the execution loop over `unique_tools`
(run_hephaestus_task lines 799-1106). `content` is the raw model response
(some guardrails append it to the history). -/
def processCall (env : Env) (content jobId agentName : String) (batchCount : Nat)
    (st : LoopState) (call : ToolCall) : CallResult :=
  let action := call.action
  let args := call.args
  let target_file := pyReplace (argGet args "file_path" "") "\\" "/"
  if action == "task_complete" then
    taskCompleteCheck env st args
  else if !(TOOLS.contains action) then
    skipResult ["❌ Error: Tool '" ++ action ++ "' not found."] [] st
  else if argsHasSentinel args && cacheFalsy st.cache then
    haltResult [sentinelErrorMsg] [] st
  else
    let args1 := if argsHasSentinel args then injectSentinel action args (cacheVal st.cache) else args
    guardStage env content jobId agentName batchCount st action target_file (stripArgs args1)

def insertByKey (kv : String × String) : Args → Args
  | [] => [kv]
  | x :: xs => if kv.1 < x.1 then kv :: x :: xs else x :: insertByKey kv xs

def sortArgsByKey : Args → Args
  | [] => []
  | kv :: rest => insertByKey kv (sortArgsByKey rest)

/-- `json.dumps(t, sort_keys=True)` identifies calls up to argument order:
the canonical form sorts the argument keys. -/
def canonCall (c : ToolCall) : ToolCall := ⟨c.action, sortArgsByKey c.args⟩

/-- Lines 788-794: de-duplicate the parsed candidates by structural
equality, keeping first occurrences in order. -/
def dedupCalls (calls : List ToolCall) : List ToolCall :=
  (calls.foldl (fun (acc : List ToolCall × List ToolCall) t =>
      if acc.2.contains (canonCall t) then acc
      else (acc.1 ++ [t], acc.2 ++ [canonCall t])) ([], [])).1

structure ExecResult where
  stepOutputs : List String
  historyAdds : List Turn
  executed : List ToolCall
  state : LoopState
  finished : Bool
deriving Repr

def execLoopAux (env : Env) (content jobId agentName : String) (batchCount : Nat) :
    List ToolCall → LoopState → ExecResult
  | [], st => ⟨[], [], [], st, false⟩
  | c :: rest, st =>
    let r := processCall env content jobId agentName batchCount st c
    match r.control with
    | .stop => ⟨r.stepOutputs, r.historyAdds, r.executed, r.state, r.finished⟩
    | .next =>
      let rr := execLoopAux env content jobId agentName batchCount rest r.state
      ⟨r.stepOutputs ++ rr.stepOutputs, r.historyAdds ++ rr.historyAdds,
       r.executed ++ rr.executed, rr.state, r.finished || rr.finished⟩

/-- The whole execution stage of one turn: de-duplicate, then run the loop
(`break` after the first dispatched execution). -/
def execPhase (env : Env) (content jobId agentName : String) (calls : List ToolCall)
    (st : LoopState) : ExecResult :=
  let u := dedupCalls calls
  execLoopAux env content jobId agentName u.length u st

/-! ## Concrete scenarios used by counterexamples and witnesses -/

/-- A model response with two payload blocks of lengths 10 and 2: the second
is exactly 20% of the first. -/
def contentTwoBlocks : String := "```python\nabcdefghij```\n```python\nxy```"

/-- The same with lengths 10 and 3 (strictly above 20%). -/
def contentTwoBlocksBig : String := "```python\nabcdefghij```\n```python\nxyz```"

/-- One write_file candidate targeting a Python source file. -/
def callsOneWrite : List ToolCall :=
  [⟨"write_file", [("file_path", "src/app.py"), ("content", "LAST_CODE_BLOCK")]⟩]

/-- A neutral environment: empty command outputs, no files, handlers
succeed. -/
def envPlain : Env :=
  ⟨fun _ => "", fun _ => false, fun _ => none, fun _ _ => "✅ ok", "/ws"⟩

def stEmpty : LoopState := ⟨none, 0, []⟩

/-- A workspace where only `/ws/notes.txt` exists, with ten characters of
content. -/
def envTxt : Env :=
  ⟨fun _ => "", fun p => p == "/ws/notes.txt",
   fun p => if p == "/ws/notes.txt" then some "0123456789" else none,
   fun _ _ => "✅ File Written", "/ws"⟩

/-- Like `envTxt` but the pre-existing file is `/ws/notes.py`. -/
def envPy : Env :=
  ⟨fun _ => "", fun p => p == "/ws/notes.py",
   fun p => if p == "/ws/notes.py" then some "0123456789" else none,
   fun _ _ => "✅ File Written", "/ws"⟩

/-- Inspector outputs for the completion gate: the porcelain status reports
one modification staged and modified again ("MM"), the clean preview is
empty, a feature branch with one source change, an open PR and a running
container. -/
def envGate : Env :=
  ⟨fun c =>
      if c == "git clean -nd" then "✅ Command Success:\n"
      else if c == "git status --porcelain" then "✅ Command Success:\nMM src/app.py"
      else if c == "git branch --show-current" then "✅ Command Success:\nfeature-x"
      else if c == "docker ps" then "✅ Command Success:\nabc123 api Up"
      else if startsWithB c "git diff --name-only main..." then "✅ Command Success:\nsrc/app.py"
      else if startsWithB c "gh pr list --head " then "✅ Command Success:\nopen 3 feature-x"
      else "",
   fun _ => true, fun _ => none, fun _ _ => "✅ ok", "/ws"⟩

def stGate : LoopState :=
  ⟨none, 0, [⟨"run_command", [("command", "docker-compose up -d --build")]⟩]⟩

/-- Handlers whose pytest run fails. -/
def envPytest : Env :=
  ⟨fun _ => "", fun _ => false, fun _ => none,
   fun t _ =>
     if t == "run_command" then "❌ Command Failed (Exit Code 1):\n=== FAILURES ===\nassert x"
     else "✅ ok",
   "/ws"⟩

/-- One earlier failure and one earlier edit of src/m.py. -/
def stPytest : LoopState :=
  ⟨none, 1, [⟨"write_file", [("file_path", "src/m.py"), ("content", "x")]⟩]⟩

/-! ## Helper lemmas -/

theorem strContains_self (s : String) : strContains s s = true := by
  simp only [strContains, decide_eq_true_eq]
  exact List.infix_rfl

theorem strContains_append_right (s t mid : String) (h : strContains t mid = true) :
    strContains (s ++ t) mid = true := by
  simp only [strContains, decide_eq_true_eq] at h ⊢
  obtain ⟨u, v, huv⟩ := h
  refine ⟨s.data ++ u, v, ?_⟩
  show s.data ++ u ++ mid.data ++ v = (s ++ t).data
  rw [show (s ++ t).data = s.data ++ t.data from rfl, ← huv]
  simp [List.append_assoc]

theorem strContains_append_left (s t mid : String) (h : strContains s mid = true) :
    strContains (s ++ t) mid = true := by
  simp only [strContains, decide_eq_true_eq] at h ⊢
  obtain ⟨u, v, huv⟩ := h
  refine ⟨u, v ++ t.data, ?_⟩
  show u ++ mid.data ++ (v ++ t.data) = (s ++ t).data
  rw [show (s ++ t).data = s.data ++ t.data from rfl, ← huv]
  simp [List.append_assoc]

theorem joinWith_mem (sep k : String) : ∀ (l : List String), k ∈ l →
    strContains (joinWith sep l) k = true := by
  intro l
  induction l with
  | nil => intro h; cases h
  | cons a rest ih =>
    intro hmem
    match rest, hmem with
    | [], h =>
      have : k = a := by cases h with | head => rfl | tail _ h2 => cases h2
      subst this
      exact strContains_self k
    | b :: rest2, h =>
      show strContains (a ++ sep ++ joinWith sep (b :: rest2)) k = true
      cases h with
      | head =>
        exact strContains_append_left _ _ _ (strContains_append_left _ _ _ (strContains_self k))
      | tail _ h2 =>
        exact strContains_append_right _ _ _ (ih h2)

theorem insertDescLen_length (x : String) (l : List String) :
    (insertDescLen x l).length = l.length + 1 := by
  induction l with
  | nil => rfl
  | cons y ys ih =>
    simp only [insertDescLen]
    split
    · simp [ih]
    · simp

theorem sortDescLen_length (l : List String) : (sortDescLen l).length = l.length := by
  induction l with
  | nil => rfl
  | cons x xs ih => simp [sortDescLen, insertDescLen_length, ih]

theorem countAux_pos_of_infix (n : Char) (ns : List Char) :
    ∀ (fuel : Nat) (hay : List Char), hay.length ≤ fuel → (n :: ns) <:+: hay →
      1 ≤ countAux n ns fuel hay := by
  intro fuel
  induction fuel with
  | zero =>
    intro hay hlen h
    have h1 := h.length_le
    simp only [List.length_cons] at h1
    omega
  | succ fuel ih =>
    intro hay hlen h
    match hay with
    | [] =>
      have h1 := h.length_le
      simp only [List.length_cons, List.length_nil] at h1
      omega
    | c :: rest =>
      rw [countAux]
      split
      · omega
      · rename_i hnp
        rcases List.infix_cons_iff.mp h with hpre | hinf
        · exact absurd hpre hnp
        · refine ih rest ?_ hinf
          simp only [List.length_cons] at hlen
          omega

theorem pyCount_pos_of_contains (content target : String)
    (h : strContains content target = true) : 1 ≤ pyCount content target := by
  simp only [strContains, decide_eq_true_eq] at h
  rcases htd : target.data with _ | ⟨n, ns⟩
  · simp only [pyCount, htd]
    omega
  · rw [htd] at h
    simp only [pyCount, htd]
    exact countAux_pos_of_infix n ns content.data.length content.data (Nat.le_refl _) h

/-! ## C3: the validator -/

/-- C3: for every registered tool, an action whose argument key set holds a
key outside required ∪ optional (∪ the declared file_path key) fails
validation with an error naming the unknown keys before the handler is
invoked; with no unknown key, a missing required key fails with an error
naming the missing keys before the handler is invoked. The result is the
same for every handler and carries `invoked := false`. -/
theorem C3_validator_rejects (handler : String → Args → String) (tool : String)
    (schema : ToolSchema) (args : Args)
    (hTool : TOOLS.contains tool = true)
    (hSchema : TOOL_SCHEMAS tool = some schema) :
    (unknownArgsOf schema args ≠ [] →
      execute_tool_dynamic handler tool args =
        ⟨false, "[ERROR] Invalid arguments: " ++ joinComma (unknownArgsOf schema args) ++
          ". Allowed: " ++ joinComma (validKeysOf schema), false⟩ ∧
      ∀ k ∈ unknownArgsOf schema args,
        strContains (execute_tool_dynamic handler tool args).output k = true) ∧
    (unknownArgsOf schema args = [] → missingArgsOf schema args ≠ [] →
      execute_tool_dynamic handler tool args =
        ⟨false, "[ERROR] Missing required arguments: " ++ joinComma (missingArgsOf schema args),
          false⟩ ∧
      ∀ k ∈ missingArgsOf schema args,
        strContains (execute_tool_dynamic handler tool args).output k = true) := by
  constructor
  · intro hu
    have he : execute_tool_dynamic handler tool args =
        ⟨false, "[ERROR] Invalid arguments: " ++ joinComma (unknownArgsOf schema args) ++
          ". Allowed: " ++ joinComma (validKeysOf schema), false⟩ := by
      unfold execute_tool_dynamic
      rw [hTool, hSchema]
      simp [hu]
    refine ⟨he, ?_⟩
    intro k hk
    rw [he]
    exact strContains_append_left _ _ _ (strContains_append_left _ _ _
      (strContains_append_right _ _ _ (joinWith_mem ", " k _ hk)))
  · intro hu hm
    have he : execute_tool_dynamic handler tool args =
        ⟨false, "[ERROR] Missing required arguments: " ++ joinComma (missingArgsOf schema args),
          false⟩ := by
      unfold execute_tool_dynamic
      rw [hTool, hSchema]
      simp [hu, hm]
    refine ⟨he, ?_⟩
    intro k hk
    rw [he]
    exact strContains_append_right _ _ _ (joinWith_mem ", " k _ hk)

/-- Witness for C3 at run_command: an unknown key `bogus` and, separately, a
missing required key `command`. -/
theorem C3_witness :
    execute_tool_dynamic (fun _ _ => "✅ ok") "run_command" [("command", "x"), ("bogus", "y")] =
      ⟨false, "[ERROR] Invalid arguments: bogus. Allowed: command, cwd, timeout", false⟩ ∧
    execute_tool_dynamic (fun _ _ => "✅ ok") "run_command" [("cwd", ".")] =
      ⟨false, "[ERROR] Missing required arguments: command", false⟩ := by
  have h1 := C3_validator_rejects (fun _ _ => "✅ ok") "run_command"
    ⟨["command"], ["cwd", "timeout"], false⟩ [("command", "x"), ("bogus", "y")]
    (by decide) (by rfl)
  have h2 := C3_validator_rejects (fun _ _ => "✅ ok") "run_command"
    ⟨["command"], ["cwd", "timeout"], false⟩ [("cwd", ".")]
    (by decide) (by rfl)
  constructor
  · rw [(h1.1 (by decide)).1]; decide
  · rw [(h2.2 (by decide) (by decide)).1]; decide

/-! ## C9: workspace path confinement -/

/-- C9 (code bug): `_get_safe_path` documents that it ensures the path is
within AGENT_WORKSPACE, but its check is a raw string-prefix test, so for
workspace `/ws` the traversal `../ws-evil/x` resolves to `/ws-evil/x`,
passes the check, and `write_file` writes outside the workspace instead of
rejecting. -/
theorem C9_path_escape_bug :
    get_safe_path "/ws" "../ws-evil/x" = .ok "/ws-evil/x" ∧
    withinWorkspace "/ws" "/ws-evil/x" = false ∧
    (write_file_op "/ws" (fun _ => none) "../ws-evil/x" "data").1 =
      "✅ File Written: /ws-evil/x" ∧
    (write_file_op "/ws" (fun _ => none) "../ws-evil/x" "data").2 "/ws-evil/x" = some "data" ∧
    get_safe_path "/ws" "../../etc/passwd" =
      .error "❌ Access Denied: Path '../../etc/passwd' attempts to escape sandbox (/ws)." := by
  refine ⟨rfl, by decide, by decide, by decide, rfl⟩

/-! ## C10: edit_file replaces a unique occurrence only -/

/-- C10: `edit_file` modifies the file only when `target_text` occurs
exactly once, replacing that occurrence; an absent or ambiguous target
returns an error string and leaves the filesystem unchanged. -/
theorem C10_edit_file_unique (workspace : String) (fs : FS)
    (file_path target repl full content : String)
    (hPath : get_safe_path workspace file_path = .ok full)
    (hFile : fs full = some content) :
    (strContains content target = false →
      (edit_file_op workspace fs file_path target repl).1 =
        "❌ Error: 'target_text' not found in file. Please Read file first and ensure EXACT match." ∧
      (edit_file_op workspace fs file_path target repl).2 = fs) ∧
    (pyCount content target > 1 →
      startsWithB (edit_file_op workspace fs file_path target repl).1 "❌" = true ∧
      (edit_file_op workspace fs file_path target repl).2 = fs) ∧
    (strContains content target = true → pyCount content target ≤ 1 →
      pyCount content target = 1 ∧
      (edit_file_op workspace fs file_path target repl).1 =
        "✅ File edited successfully: " ++ file_path ∧
      (edit_file_op workspace fs file_path target repl).2 full =
        some (pyReplace content target repl)) := by
  refine ⟨?_, ?_, ?_⟩
  · intro hno
    unfold edit_file_op
    rw [hPath]
    simp [hFile, hno]
  · intro hmany
    unfold edit_file_op
    rw [hPath]
    by_cases hc : strContains content target = true
    · simp [hFile, hc, hmany]
      decide
    · simp at hc
      simp [hFile, hc]
      decide
  · intro hc hle
    have h1 : pyCount content target = 1 := by
      have := pyCount_pos_of_contains content target hc
      omega
    refine ⟨h1, ?_, ?_⟩
    · unfold edit_file_op
      rw [hPath]
      simp [hFile, hc, h1]
    · unfold edit_file_op
      rw [hPath]
      simp [hFile, hc, h1]

/-- Witness for C10 on the file `/ws/a.py` with content "aa bb aa": the
unique target "bb" is replaced, the ambiguous target "aa" and the absent
target "zz" leave the file unchanged. -/
theorem C10_witness :
    (edit_file_op "/ws" (fun p => if p == "/ws/a.py" then some "aa bb aa" else none)
        "a.py" "bb" "cc").2 "/ws/a.py" = some "aa cc aa" ∧
    startsWithB (edit_file_op "/ws" (fun p => if p == "/ws/a.py" then some "aa bb aa" else none)
        "a.py" "aa" "cc").1 "❌" = true ∧
    (edit_file_op "/ws" (fun p => if p == "/ws/a.py" then some "aa bb aa" else none)
        "a.py" "zz" "cc").1 =
      "❌ Error: 'target_text' not found in file. Please Read file first and ensure EXACT match." := by
  have h1 := C10_edit_file_unique "/ws"
    (fun p => if p == "/ws/a.py" then some "aa bb aa" else none)
    "a.py" "bb" "cc" "/ws/a.py" "aa bb aa" rfl rfl
  have h2 := C10_edit_file_unique "/ws"
    (fun p => if p == "/ws/a.py" then some "aa bb aa" else none)
    "a.py" "aa" "cc" "/ws/a.py" "aa bb aa" rfl rfl
  have h3 := C10_edit_file_unique "/ws"
    (fun p => if p == "/ws/a.py" then some "aa bb aa" else none)
    "a.py" "zz" "cc" "/ws/a.py" "aa bb aa" rfl rfl
  refine ⟨?_, ?_, ?_⟩
  · rw [(h1.2.2 (by decide) (by decide)).2.2]; decide
  · exact (h2.2.1 (by decide)).1
  · exact (h3.1 (by decide)).1

/-! ## C6: the ambiguity (dominance) rule of the parser -/

/-- C6 counterexample: a response whose second-longest payload block is
exactly 20% of the longest (2 vs 10 characters), targeting a non-markdown
file. The claim requires ambiguity, but the code's strict `>` comparison
accepts the turn: nothing is rejected and the longest block is cached. -/
theorem C6_counterexample :
    (parsePhase contentTwoBlocks callsOneWrite none).ambiguous = false ∧
    (parsePhase contentTwoBlocks callsOneWrite none).cache = some "abcdefghij" ∧
    validBlocks contentTwoBlocks = ["abcdefghij", "xy"] ∧
    5 * ("xy").length ≥ ("abcdefghij").length ∧
    isMarkdownMode callsOneWrite = false ∧
    callsOneWrite.length ≤ 1 := by
  refine ⟨by decide, by decide, by decide, by decide, by decide, by decide⟩

/-- C6 as amended: when the response yields at most one candidate action,
none of them task_complete, the target is not a markdown file, and the
second-longest payload block is strictly more than 20% of the longest,
`parsePhase` signals ambiguity: the turn is rejected with the corrective
message, and no block is cached. -/
theorem C6_ambiguity_amended (content : String) (toolCalls : List ToolCall)
    (cache : Option String)
    (hFin : toolCalls.any (fun t => t.action == "task_complete") = false)
    (hMd : isMarkdownMode toolCalls = false)
    (hLen : toolCalls.length ≤ 1)
    (hTwo : 1 < (sortDescLen (validBlocks content)).length)
    (hDom : 5 * ((sortDescLen (validBlocks content)).getD 1 "").length >
      ((sortDescLen (validBlocks content)).headD "").length) :
    parsePhase content toolCalls cache =
      ⟨true, [("assistant", content), ("user", ambiguityMsg)], none, cache⟩ := by
  unfold parsePhase
  rw [hFin]
  simp only [Bool.false_eq_true, if_false]
  have hne : validBlocks content ≠ [] := by
    intro hnil
    rw [hnil] at hTwo
    simp [sortDescLen] at hTwo
  rcases hv : validBlocks content with _ | ⟨b, bs⟩
  · exact absurd hv hne
  · rw [hv] at hTwo hDom
    simp only [hMd, hTwo, hDom, hLen]
    simp

/-- Witness for the amended C6: blocks of 10 and 3 characters (30% > 20%)
with one non-markdown write_file candidate are rejected as ambiguous. -/
theorem C6_witness :
    parsePhase contentTwoBlocksBig callsOneWrite none =
      ⟨true, [("assistant", contentTwoBlocksBig), ("user", ambiguityMsg)], none, none⟩ := by
  exact C6_ambiguity_amended contentTwoBlocksBig callsOneWrite none
    (by decide) (by decide) (by decide) (by decide) (by decide)

/-! ## C5 counterexample (the parse side of the cache contract) -/

/-- C5 counterexample: a response whose single surviving payload block is
the empty string. The claim says a surviving block always replaces the
cache, but the truthiness test at line 753 keeps the old value instead. -/
theorem C5_counterexample :
    (parsePhase "```\n```" callsOneWrite (some "x")).captured = some "" ∧
    (parsePhase "```\n```" callsOneWrite (some "x")).ambiguous = false ∧
    (parsePhase "```\n```" callsOneWrite (some "x")).cache = some "x" ∧
    some "x" ≠ some (pyStrip "") := by
  refine ⟨by decide, by decide, by decide, by decide⟩

/-- The CompletionGate branch never dispatches a handler: every exit of
`taskCompleteCheck` carries an empty executed list. -/
theorem taskCompleteCheck_executed_nil (env : Env) (st : LoopState) (args : Args) :
    (taskCompleteCheck env st args).executed = [] := by
  simp only [taskCompleteCheck]
  split
  · rfl
  · split
    · rfl
    · rfl

/-- The record-and-execute stage dispatches exactly one action, breaks the
loop, and on a batched turn its result carries the ignored-actions notice. -/
theorem execStage_shape (env : Env) (jobId agentName : String) (bc : Nat)
    (st : LoopState) (action : String) (args2 : Args) :
    ∃ c, (execStage env jobId agentName bc st action args2).executed = [c] ∧
      (execStage env jobId agentName bc st action args2).control = .stop ∧
      (1 < bc → ∃ out ∈ (execStage env jobId agentName bc st action args2).stepOutputs,
        strContains out (ignoredNotice bc) = true) := by
  simp only [execStage]
  refine ⟨_, rfl, rfl, ?_⟩
  intro hbc
  simp only [execResultOf]
  rw [if_pos hbc]
  refine ⟨_, List.Mem.head _, ?_⟩
  exact strContains_append_right _ _ _ (strContains_append_right _ _ _
    (strContains_append_left _ _ _ (strContains_append_right _ _ _
      (strContains_self _))))

/-- After the guardrails, an iteration either executes nothing or exactly
one action with a loop break (and the batch notice when batched). -/
theorem guardStage_shape (env : Env) (content jobId agentName : String) (bc : Nat)
    (st : LoopState) (action target_file : String) (args2 : Args) :
    (guardStage env content jobId agentName bc st action target_file args2).executed = [] ∨
    ∃ c, (guardStage env content jobId agentName bc st action target_file args2).executed = [c] ∧
      (guardStage env content jobId agentName bc st action target_file args2).control = .stop ∧
      (1 < bc → ∃ out ∈ (guardStage env content jobId agentName bc st action target_file args2).stepOutputs,
        strContains out (ignoredNotice bc) = true) := by
  simp only [guardStage]
  split
  · exact Or.inl rfl
  · split
    · exact Or.inl rfl
    · split
      · exact Or.inl rfl
      · exact Or.inr (execStage_shape env jobId agentName bc st action args2)

/-- Every iteration of the tool loop executes at most one action; when it
does, the loop breaks and a batched turn reports the rest as ignored. -/
theorem processCall_exec_shape (env : Env) (content jobId agentName : String) (bc : Nat)
    (st : LoopState) (call : ToolCall) :
    (processCall env content jobId agentName bc st call).executed = [] ∨
    ∃ c, (processCall env content jobId agentName bc st call).executed = [c] ∧
      (processCall env content jobId agentName bc st call).control = .stop ∧
      (1 < bc → ∃ out ∈ (processCall env content jobId agentName bc st call).stepOutputs,
        strContains out (ignoredNotice bc) = true) := by
  simp only [processCall]
  split
  · exact Or.inl (taskCompleteCheck_executed_nil env st call.args)
  · split
    · exact Or.inl rfl
    · split
      · exact Or.inl rfl
      · exact guardStage_shape env content jobId agentName bc st call.action _ _

/-- The loop over unique_tools in total dispatches at most one action; when
it does and the turn was batched, some step output carries the
ignored-actions notice. -/
theorem execLoopAux_shape (env : Env) (content jobId agentName : String) (bc : Nat) :
    ∀ (l : List ToolCall) (st : LoopState),
      (execLoopAux env content jobId agentName bc l st).executed = [] ∨
      ∃ c, (execLoopAux env content jobId agentName bc l st).executed = [c] ∧
        (1 < bc → ∃ out ∈ (execLoopAux env content jobId agentName bc l st).stepOutputs,
          strContains out (ignoredNotice bc) = true) := by
  intro l
  induction l with
  | nil => intro st; exact Or.inl rfl
  | cons c rest ih =>
    intro st
    simp only [execLoopAux]
    rcases processCall_exec_shape env content jobId agentName bc st c with hnil | ⟨c', hex, hctl, halert⟩
    · cases hc : (processCall env content jobId agentName bc st c).control
      · simp only []
        rcases ih ((processCall env content jobId agentName bc st c).state) with h2 | ⟨c2, h2, halert2⟩
        · left
          simp [hnil, h2]
        · right
          refine ⟨c2, by simp [hnil, h2], ?_⟩
          intro hbc
          rcases halert2 hbc with ⟨out, hmem, hcon⟩
          exact ⟨out, List.mem_append_right _ hmem, hcon⟩
      · left
        simp [hnil]
    · rw [hctl]
      simp only []
      exact Or.inr ⟨c', hex, halert⟩

/-- C1 as amended: however many candidate actions the parser yields, the
session dispatches at most one of them to execution per turn, and whenever
an action is executed while more than one distinct candidate was present,
its result message reports the remaining candidates as ignored. -/
theorem C1_atomicity (env : Env) (content jobId agentName : String)
    (calls : List ToolCall) (st : LoopState) :
    (execPhase env content jobId agentName calls st).executed.length ≤ 1 ∧
    (∀ c, (execPhase env content jobId agentName calls st).executed = [c] →
      1 < (dedupCalls calls).length →
      ∃ out ∈ (execPhase env content jobId agentName calls st).stepOutputs,
        strContains out (ignoredNotice (dedupCalls calls).length) = true) := by
  have he : execPhase env content jobId agentName calls st =
      execLoopAux env content jobId agentName (dedupCalls calls).length (dedupCalls calls) st := rfl
  rw [he]
  rcases execLoopAux_shape env content jobId agentName (dedupCalls calls).length
      (dedupCalls calls) st with h | ⟨c, hc, halert⟩
  · constructor
    · rw [h]; simp
    · intro c hcc
      rw [h] at hcc
      cases hcc
  · constructor
    · rw [hc]; simp
    · intro c2 hcc hbc
      exact halert hbc

/-- Witness for C1: two distinct valid candidates; at most one executes and
the result reports 1 ignored action. -/
theorem C1_witness :
    (execPhase envPlain "resp" "j" "hephaestus"
      [⟨"git_commit", [("message", "m")]⟩, ⟨"list_files", []⟩] stEmpty).executed.length ≤ 1 ∧
    ∃ out ∈ (execPhase envPlain "resp" "j" "hephaestus"
      [⟨"git_commit", [("message", "m")]⟩, ⟨"list_files", []⟩] stEmpty).stepOutputs,
      strContains out (ignoredNotice 2) = true := by
  have h := C1_atomicity envPlain "resp" "j" "hephaestus"
    [⟨"git_commit", [("message", "m")]⟩, ⟨"list_files", []⟩] stEmpty
  refine ⟨h.1, ?_⟩
  exact h.2 ⟨"git_commit", [("message", "m")]⟩ (by decide) (by decide)

/-- C1 counterexample: when the first candidate names an unknown tool, the
session executes the SECOND candidate, so the claim that only the first
candidate is executed and the rest never execute is false as stated. -/
theorem C1_counterexample :
    (execPhase envPlain "resp" "j" "hephaestus" [⟨"bogus", []⟩, ⟨"list_files", []⟩] stEmpty).executed =
      [⟨"list_files", []⟩] ∧
    (⟨"bogus", []⟩ : ToolCall) ≠ ⟨"list_files", []⟩ := by
  refine ⟨by decide, by decide⟩

/-- Shared helper: a registered (non-finish) action whose arguments carry
the sentinel is halted before execution whenever the cache is falsy. -/
theorem sentinelRejectLemma (env : Env) (content jobId agentName : String) (bc : Nat)
    (st : LoopState) (call : ToolCall)
    (hTool : TOOLS.contains call.action = true)
    (hSent : argsHasSentinel call.args = true)
    (hCache : cacheFalsy st.cache = true) :
    processCall env content jobId agentName bc st call = haltResult [sentinelErrorMsg] [] st := by
  have hnotc : (call.action == "task_complete") = false := by
    by_cases h : call.action = "task_complete"
    · rw [h] at hTool
      exact absurd hTool (by decide)
    · simp [h]
  simp only [processCall, hnotc, hTool, hSent, hCache]
  simp

/-- C4: any registered action whose arguments contain the sentinel token
LAST_CODE_BLOCK while the content cache is empty is rejected with the
pre-execution error; nothing is executed (the literal sentinel is never
passed to a handler) and the state is unchanged. -/
theorem C4_sentinel_empty_rejects (env : Env) (content jobId agentName : String) (bc : Nat)
    (st : LoopState) (call : ToolCall)
    (hTool : TOOLS.contains call.action = true)
    (hSent : argsHasSentinel call.args = true)
    (hCache : cacheFalsy st.cache = true) :
    processCall env content jobId agentName bc st call = haltResult [sentinelErrorMsg] [] st :=
  sentinelRejectLemma env content jobId agentName bc st call hTool hSent hCache

/-- Witness for C4: a write_file using the sentinel against an empty cache. -/
theorem C4_witness :
    processCall envPlain "resp" "j" "hephaestus" 1 stEmpty
      ⟨"write_file", [("file_path", "a.txt"), ("content", "LAST_CODE_BLOCK")]⟩ =
      haltResult [sentinelErrorMsg] [] stEmpty :=
  C4_sentinel_empty_rejects envPlain "resp" "j" "hephaestus" 1 stEmpty
    ⟨"write_file", [("file_path", "a.txt"), ("content", "LAST_CODE_BLOCK")]⟩
    (by decide) (by decide) (by decide)

/-- C2 (code bug): with `git status --porcelain` reporting the uncommitted
modification "MM src/app.py", the dirty filter misses the two-letter
porcelain code and task_complete is accepted (finished = true), although a
single-letter code in the same position is caught. -/
theorem C2_gate_accepts_dirty_mm :
    (processCall envGate "resp" "j" "hephaestus" 1 stGate
      ⟨"task_complete", [("summary", "done")]⟩).finished = true ∧
    strContains (envGate.cmd "git status --porcelain") "MM src/app.py" = true ∧
    dirtyFromStatus (envGate.cmd "git status --porcelain") = [] ∧
    dirtyFromStatus "✅ Command Success:\n M src/app.py" = ["M src/app.py"] := by
  refine ⟨by decide, by decide, by decide, by decide⟩

/-- C5 as amended: after every successful execution of a content-consuming
action (write_file, append_file, edit_file) the cache is cleared, so a
subsequent sentinel resolution without an intervening block rejects; and a
new NONEMPTY surviving payload block replaces (never merges with) the
cache. (The empty surviving block is the corrected edge: see the
counterexample.) -/
theorem C5_cache_oneshot (env : Env) (jobId agentName : String) (bc : Nat) (st : LoopState)
    (action : String) (args2 : Args)
    (hCC : (action == "write_file" || action == "append_file" || action == "edit_file") = true)
    (hSucc : (execute_tool_dynamic env.handler action args2).success = true) :
    (execStage env jobId agentName bc st action args2).state.cache = none ∧
    (∀ (env2 : Env) (content2 jobId2 agentName2 : String) (bc2 : Nat) (call2 : ToolCall),
      TOOLS.contains call2.action = true → argsHasSentinel call2.args = true →
      processCall env2 content2 jobId2 agentName2 bc2
          (execStage env jobId agentName bc st action args2).state call2 =
        haltResult [sentinelErrorMsg] []
          (execStage env jobId agentName bc st action args2).state) ∧
    (∀ (b : String) (old : Option String), pyTruthy b = true →
      updateMemory (some b) old = some (pyStrip b)) := by
  have hact : action = "write_file" ∨ action = "append_file" ∨ action = "edit_file" := by
    rcases Bool.or_eq_true_iff.mp hCC with h | h
    · rcases Bool.or_eq_true_iff.mp h with h2 | h2
      · exact Or.inl (eq_of_beq h2)
      · exact Or.inr (Or.inl (eq_of_beq h2))
    · exact Or.inr (Or.inr (eq_of_beq h))
  have hargs3 :
      (if action == "run_command" then dockerFix args2
       else if action == "git_setup_workspace" then
         argSet (argSet args2 "job_id" jobId) "agent_name" agentName
       else args2) = args2 := by
    rcases hact with h | h | h <;> subst h <;> rfl
  have hcache : (execStage env jobId agentName bc st action args2).state.cache = none := by
    simp only [execStage, hargs3]
    simp only [execResultOf, hCC, hSucc, Bool.true_and, if_true]
  refine ⟨hcache, ?_, ?_⟩
  · intro env2 content2 jobId2 agentName2 bc2 call2 hTool2 hSent2
    refine sentinelRejectLemma env2 content2 jobId2 agentName2 bc2 _ call2 hTool2 hSent2 ?_
    rw [hcache]
    rfl
  · intro b old hb
    simp [updateMemory, hb]

/-- Witness for C5: a successful write_file clears a nonempty cache and the
next sentinel use is rejected. -/
theorem C5_witness :
    (execStage envPlain "j" "hephaestus" 1 ⟨some "cached", 0, []⟩ "write_file"
      [("file_path", "a.txt"), ("content", "hi")]).state.cache = none ∧
    processCall envPlain "resp" "j" "hephaestus" 1
        (execStage envPlain "j" "hephaestus" 1 ⟨some "cached", 0, []⟩ "write_file"
          [("file_path", "a.txt"), ("content", "hi")]).state
        ⟨"write_file", [("file_path", "b.txt"), ("content", "LAST_CODE_BLOCK")]⟩ =
      haltResult [sentinelErrorMsg] []
        (execStage envPlain "j" "hephaestus" 1 ⟨some "cached", 0, []⟩ "write_file"
          [("file_path", "a.txt"), ("content", "hi")]).state := by
  have h := C5_cache_oneshot envPlain "j" "hephaestus" 1 ⟨some "cached", 0, []⟩ "write_file"
    [("file_path", "a.txt"), ("content", "hi")] (by decide) (by decide)
  exact ⟨h.1, h.2.1 envPlain "resp" "j" "hephaestus" 1
    ⟨"write_file", [("file_path", "b.txt"), ("content", "LAST_CODE_BLOCK")]⟩
    (by decide) (by decide)⟩

/-- C7 as amended: a write_file on a pre-existing readable `.py` file whose
new content is less than half the length of the existing content is halted
by the overwrite-protection guardrail; nothing is executed, so the file is
untouched. -/
theorem C7_overwrite_guard_amended (env : Env) (content jobId agentName : String) (bc : Nat)
    (st : LoopState) (args : Args) (old : String)
    (hSent : argsHasSentinel args = false)
    (hDocs : startsWithB (pyReplace (argGet args "file_path" "") "\\" "/") "docs/" = false)
    (hSpecs : (startsWithB (pyReplace (argGet args "file_path" "") "\\" "/") "src/" ||
               startsWithB (pyReplace (argGet args "file_path" "") "\\" "/") "tests/") = true →
              env.fileExists (pyJoin env.workspace "docs/specs.md") = true)
    (hPy : endsWithB (pyReplace (argGet args "file_path" "") "\\" "/") ".py" = true)
    (hExists : env.fileExists
      (pyJoin env.workspace (pyReplace (argGet args "file_path" "") "\\" "/")) = true)
    (hOld : env.readFile
      (pyJoin env.workspace (pyReplace (argGet args "file_path" "") "\\" "/")) = some old)
    (hSmall : 2 * (argGet (stripArgs args) "content" "").length < old.length) :
    processCall env content jobId agentName bc st ⟨"write_file", args⟩ =
      haltResult ["🚫 SAFETY BLOCK: Preventing large delete on " ++
        pyReplace (argGet args "file_path" "") "\\" "/" ++ "."] [] st := by
  simp only [processCall, hSent]
  simp only [show (("write_file" : String) == "task_complete") = false from rfl,
    show TOOLS.contains "write_file" = true from rfl, Bool.false_eq_true, if_false,
    Bool.not_true, Bool.false_and, Bool.true_and]
  simp only [guardStage, hDocs,
    show endsWithB "write_file" "_file" = true from rfl,
    show (("write_file" : String) == "write_file") = true from rfl,
    Bool.true_and, Bool.false_and, Bool.and_false, Bool.false_eq_true, if_false]
  rw [hOld]
  have hcond2 : ((startsWithB (pyReplace (argGet args "file_path" "") "\\" "/") "src/" ||
      startsWithB (pyReplace (argGet args "file_path" "") "\\" "/") "tests/") &&
      !(env.fileExists (pyJoin env.workspace "docs/specs.md"))) = false := by
    rcases hb : (startsWithB (pyReplace (argGet args "file_path" "") "\\" "/") "src/" ||
      startsWithB (pyReplace (argGet args "file_path" "") "\\" "/") "tests/") with _ | _
    · rfl
    · rw [hSpecs hb]
      rfl
  have hS : decide (2 * (argGet (stripArgs args) "content" "").length < old.length) = true :=
    decide_eq_true hSmall
  simp only [hcond2, Bool.false_eq_true, if_false, hExists, hPy, Bool.true_and, hS, if_true]

/-- Witness for C7: a 4-character overwrite of a 10-character notes.py is
blocked. -/
theorem C7_witness :
    processCall envPy "resp" "j" "hephaestus" 1 stEmpty
      ⟨"write_file", [("file_path", "notes.py"), ("content", "tiny")]⟩ =
      haltResult ["🚫 SAFETY BLOCK: Preventing large delete on notes.py."] [] stEmpty := by
  have h := C7_overwrite_guard_amended envPy "resp" "j" "hephaestus" 1 stEmpty
    [("file_path", "notes.py"), ("content", "tiny")] "0123456789"
    (by decide) (by decide) (fun hb => by exact absurd hb (by decide)) (by decide)
    (by decide) (by decide) (by decide)
  rw [h]
  rfl

/-- C7 counterexample: the same destructive overwrite on a pre-existing
notes.TXT is executed (the guardrail only protects `.py` targets), so the
claim over every pre-existing file is false as stated. -/
theorem C7_counterexample :
    (processCall envTxt "resp" "j" "hephaestus" 1 stEmpty
      ⟨"write_file", [("file_path", "notes.txt"), ("content", "tiny")]⟩).executed =
      [⟨"write_file", [("file_path", "notes.txt"), ("content", "tiny")]⟩] ∧
    envTxt.fileExists "/ws/notes.txt" = true ∧
    envTxt.readFile "/ws/notes.txt" = some "0123456789" ∧
    2 * ("tiny" : String).length < ("0123456789" : String).length := by
  refine ⟨by decide, by decide, by decide, by decide⟩

/-- Substring containment is transitive. -/
theorem strContains_trans (a b c : String) (h1 : strContains a b = true)
    (h2 : strContains b c = true) : strContains a c = true := by
  simp only [strContains, decide_eq_true_eq] at h1 h2 ⊢
  exact h2.trans h1

/-- Helper: a run_command call free of docker fixes and sentinel reaches
the record-and-execute stage unchanged. -/
theorem C8_routing (env : Env) (content jobId agentName : String) (bc : Nat)
    (st : LoopState) (cmd : String)
    (hNoSent : strContains cmd SENTINEL = false) :
    processCall env content jobId agentName bc st ⟨"run_command", [("command", cmd)]⟩ =
      execStage env jobId agentName bc st "run_command" [("command", cmd)] := by
  have hNoSent2 : strContains cmd "LAST_CODE_BLOCK" = false := hNoSent
  have hsent : argsHasSentinel [("command", cmd)] = false := by
    simp only [argsHasSentinel, List.any_cons, List.any_nil, SENTINEL]
    rw [hNoSent2]
    decide
  simp only [processCall, hsent]
  simp only [show (("run_command" : String) == "task_complete") = false from rfl,
    show TOOLS.contains "run_command" = true from rfl, Bool.not_true, Bool.false_and,
    Bool.false_eq_true, if_false]
  simp only [guardStage, show endsWithB "run_command" "_file" = false from rfl,
    show (("run_command" : String) == "write_file") = false from rfl, Bool.false_and,
    Bool.false_eq_true, if_false]
  rfl

/-- C8: on a pytest run via run_command, a failing output (FAILURES/ERRORS)
increments the rolling counter and a passing one resets it to zero; once 2
consecutive failures are reached, the result fed back as the next
corrective turn contains the stop-editing directive naming the last-edited
file and the instruction to reconsider the test expectation. -/
theorem C8_failure_breaker (env : Env) (content jobId agentName : String) (bc : Nat)
    (st : LoopState) (cmd : String)
    (hNoDocker : strContains cmd "docker" = false)
    (hPytest : strContains cmd "pytest" = true)
    (hNoSent : strContains cmd SENTINEL = false) :
    ((strContains (execute_tool_dynamic env.handler "run_command" [("command", cmd)]).output "FAILURES" ||
      strContains (execute_tool_dynamic env.handler "run_command" [("command", cmd)]).output "ERRORS") = true →
      (processCall env content jobId agentName bc st
        ⟨"run_command", [("command", cmd)]⟩).state.failures = st.failures + 1 ∧
      (st.failures + 1 ≥ 2 →
        ∃ o ∈ (processCall env content jobId agentName bc st
            ⟨"run_command", [("command", cmd)]⟩).stepOutputs,
          strContains o (stopDirective (lastEditedFile
            (st.actionHistory ++ [⟨"run_command", [("command", cmd)]⟩]))) = true ∧
          strContains o "The error is likely in the TEST file expectation" = true)) ∧
    ((strContains (execute_tool_dynamic env.handler "run_command" [("command", cmd)]).output "FAILURES" ||
      strContains (execute_tool_dynamic env.handler "run_command" [("command", cmd)]).output "ERRORS") = false →
      (processCall env content jobId agentName bc st
        ⟨"run_command", [("command", cmd)]⟩).state.failures = 0) := by
  have hred := C8_routing env content jobId agentName bc st cmd hNoSent
  have hdc : strContains cmd "docker-compose up" = false := by
    rcases hb : strContains cmd "docker-compose up" with _ | _
    · rfl
    · have hd := strContains_trans cmd "docker-compose up" "docker" hb (by decide)
      rw [hd] at hNoDocker
      cases hNoDocker
  have hfix : dockerFix [("command", cmd)] = [("command", cmd)] := by
    simp only [dockerFix, show argGet [("command", cmd)] "command" "" = cmd from rfl, hdc,
      Bool.false_eq_true, if_false, hNoDocker, Bool.false_and]
  have hstage : execStage env jobId agentName bc st "run_command" [("command", cmd)] =
      execResultOf
        ["Tool Output: " ++
          (if bc > 1 then
            (pytestUpdate st.failures
              (st.actionHistory ++ [⟨"run_command", [("command", cmd)]⟩]) "run_command"
              [("command", cmd)]
              (execute_tool_dynamic env.handler "run_command" [("command", cmd)]).output).2 ++
            batchAlert bc "run_command"
          else
            (pytestUpdate st.failures
              (st.actionHistory ++ [⟨"run_command", [("command", cmd)]⟩]) "run_command"
              [("command", cmd)]
              (execute_tool_dynamic env.handler "run_command" [("command", cmd)]).output).2)]
        ⟨"run_command", [("command", cmd)]⟩
        ⟨st.cache,
          (pytestUpdate st.failures
            (st.actionHistory ++ [⟨"run_command", [("command", cmd)]⟩]) "run_command"
            [("command", cmd)]
            (execute_tool_dynamic env.handler "run_command" [("command", cmd)]).output).1,
          st.actionHistory ++ [⟨"run_command", [("command", cmd)]⟩]⟩ := by
    simp only [execStage, show (("run_command" : String) == "run_command") = true from rfl,
      if_true, hfix, show (("run_command" : String) == "write_file") = false from rfl,
      show (("run_command" : String) == "append_file") = false from rfl,
      show (("run_command" : String) == "edit_file") = false from rfl,
      Bool.false_or, Bool.false_and, Bool.false_eq_true, if_false]
  have hPcond : (("run_command" == "run_command") &&
      strContains (argGet [("command", cmd)] "command" "") "pytest") = true := by
    rw [show argGet [("command", cmd)] "command" "" = cmd from rfl, hPytest]
    rfl
  constructor
  · intro hfail
    have hP : pytestUpdate st.failures
        (st.actionHistory ++ [⟨"run_command", [("command", cmd)]⟩]) "run_command"
        [("command", cmd)]
        (execute_tool_dynamic env.handler "run_command" [("command", cmd)]).output =
        (if st.failures + 1 ≥ 2 then
          (st.failures + 1,
            (execute_tool_dynamic env.handler "run_command" [("command", cmd)]).output ++
            interventionMsg (st.failures + 1) (lastEditedFile
              (st.actionHistory ++ [⟨"run_command", [("command", cmd)]⟩])))
        else (st.failures + 1,
          (execute_tool_dynamic env.handler "run_command" [("command", cmd)]).output)) := by
      simp only [pytestUpdate, hPcond, if_true, hfail]
    rw [hred, hstage]
    constructor
    · simp only [execResultOf]
      rw [hP]
      rcases Nat.lt_or_ge (st.failures + 1) 2 with h2 | h2
      · rw [if_neg (by omega)]
      · rw [if_pos h2]
    · intro h2
      simp only [execResultOf]
      rw [hP, if_pos h2]
      have hdir : strContains
          ((execute_tool_dynamic env.handler "run_command" [("command", cmd)]).output ++
            interventionMsg (st.failures + 1) (lastEditedFile
              (st.actionHistory ++ [⟨"run_command", [("command", cmd)]⟩])))
          (stopDirective (lastEditedFile
            (st.actionHistory ++ [⟨"run_command", [("command", cmd)]⟩]))) = true := by
        refine strContains_append_right _ _ _ ?_
        simp only [interventionMsg]
        exact strContains_append_left _ _ _ (strContains_append_right _ _ _ (strContains_self _))
      have htest : strContains
          ((execute_tool_dynamic env.handler "run_command" [("command", cmd)]).output ++
            interventionMsg (st.failures + 1) (lastEditedFile
              (st.actionHistory ++ [⟨"run_command", [("command", cmd)]⟩])))
          "The error is likely in the TEST file expectation" = true := by
        refine strContains_append_right _ _ _ ?_
        simp only [interventionMsg]
        refine strContains_append_right _ _ _ ?_
        decide
      by_cases hbc : bc > 1
      · rw [if_pos hbc]
        refine ⟨_, List.Mem.head _, ?_, ?_⟩
        · exact strContains_append_right _ _ _ (strContains_append_left _ _ _ hdir)
        · exact strContains_append_right _ _ _ (strContains_append_left _ _ _ htest)
      · rw [if_neg hbc]
        refine ⟨_, List.Mem.head _, ?_, ?_⟩
        · exact strContains_append_right _ _ _ hdir
        · exact strContains_append_right _ _ _ htest
  · intro hpass
    have hP : pytestUpdate st.failures
        (st.actionHistory ++ [⟨"run_command", [("command", cmd)]⟩]) "run_command"
        [("command", cmd)]
        (execute_tool_dynamic env.handler "run_command" [("command", cmd)]).output =
        (0, (execute_tool_dynamic env.handler "run_command" [("command", cmd)]).output) := by
      simp only [pytestUpdate, hPcond, if_true, hpass]
      rfl
    rw [hred, hstage]
    simp only [execResultOf]
    rw [hP]

/-- Witness for C8: a second consecutive pytest failure after an edit of
src/m.py reaches counter 2 and injects the directive. -/
theorem C8_witness :
    (processCall envPytest "resp" "j" "hephaestus" 1 stPytest
      ⟨"run_command", [("command", "pytest -q")]⟩).state.failures = 2 ∧
    ∃ o ∈ (processCall envPytest "resp" "j" "hephaestus" 1 stPytest
        ⟨"run_command", [("command", "pytest -q")]⟩).stepOutputs,
      strContains o (stopDirective "src/m.py") = true ∧
      strContains o "The error is likely in the TEST file expectation" = true := by
  have h := C8_failure_breaker envPytest "resp" "j" "hephaestus" 1 stPytest "pytest -q"
    (by decide) (by decide) (by decide)
  have h1 := h.1 (by decide)
  exact ⟨h1.1, h1.2 (by decide)⟩
